import Mathlib

/-!
Shallow embedding of the American Mahjong hand calculator
(backend/src/mahjong/hand_evaluator.py and tile_calculator.py).

Tiles are the raw tile token strings of the source ("1B".."9D", winds
"E" "S" "W" "N", dragons "R" "G" "0", wildcard "F", year tile "2024").
A hand is a Python list of such strings, embedded as a List String.
Python Counter / dict iteration order is insertion order, i.e. first
occurrence order; it is modelled by keysOf below.  Python set iteration
order is implementation defined; where the source materialises a set
into a list (suits_used, tiles_to_win) we use first-occurrence order,
which no verified property depends on.  All scores in the source are
exact small integers (floats that only ever hold integers on the paths
embedded here), so discard scores are embedded as Int.
-/

namespace MahjongCalc

/-- Last character of a tile token; models Python tile[-1] (every tile
token in play is non-empty, the default is never reached). -/
def lastChar (t : String) : Char := t.data.getLastD ' '

/-- First character of a tile token; models Python tile[0]. -/
def firstChar (t : String) : Char := t.data.headD ' '

/-- Models Python tile.endswith(("B", "C", "D")): the only tile tokens
ending in one of these single characters are the numbered tiles. -/
def isNumberedTile (t : String) : Bool :=
  lastChar t = 'B' || lastChar t = 'C' || lastChar t = 'D'

/-- Models Python int(tile[0]) for the digit leading a numbered tile. -/
def tileNumber (t : String) : Nat := (firstChar t).toNat - 48

/-- Builds the token f-string of a numbered tile from digit and suit,
models Python f-strings such as f-string number-1 suit. -/
def numTileStr (n : Nat) (suit : Char) : String :=
  String.mk [Char.ofNat (48 + n), suit]

/-- Splitting a pattern string on runs of spaces, dropping empty parts;
models Python str.split(). -/
def splitWsAux : List Char → List Char → List String
  | [], cur => if cur = [] then [] else [String.mk cur.reverse]
  | c :: cs, cur =>
    if c = ' ' then
      if cur = [] then splitWsAux cs []
      else String.mk cur.reverse :: splitWsAux cs []
    else splitWsAux cs (c :: cur)

def splitWs (s : String) : List String := splitWsAux s.data []

/-- Distinct elements in first-occurrence order: the key order of a
Python dict or collections.Counter filled by iterating the list. -/
def keysOf {α : Type} [DecidableEq α] : List α → List α
  | [] => []
  | a :: l => a :: (keysOf l).filter (fun b => decide (b ≠ a))

/-- Models the consecutive-count loop of the any-5-consec branch of
_check_suit_requirements: prev is the previous number, cur the current
run length, best the maximum run length seen. -/
def consecLoop : Nat → Nat → Nat → List Nat → Nat
  | _, _, best, [] => best
  | prev, cur, best, n :: ns =>
    if n = prev + 1 then consecLoop n (cur + 1) (max best (cur + 1)) ns
    else consecLoop n 1 best ns

/-- Maximum run of numbers each exactly one more than its predecessor
in the given (already sorted) list, starting counts at 1 as the source
does. -/
def maxConsecutive (nums : List Nat) : Nat :=
  match nums with
  | [] => 1
  | n :: ns => consecLoop n 1 1 ns

/-- All valid tile tokens of HandEvaluator.valid_tiles, in the order the
source builds them: bams, cracks, dots, winds, dragons, flowers, year. -/
def validTileList : List String :=
  ["1B", "2B", "3B", "4B", "5B", "6B", "7B", "8B", "9B",
   "1C", "2C", "3C", "4C", "5C", "6C", "7C", "8C", "9C",
   "1D", "2D", "3D", "4D", "5D", "6D", "7D", "8D", "9D",
   "E", "S", "W", "N", "R", "G", "0", "F", "2024"]

/-- The dragon association table: suit letter to its matching dragon
token (HandEvaluator.dragon_associations, a dict lookup via .get). -/
def dragon_assoc (suit : Char) : Option String :=
  if suit = 'C' then some "R"
  else if suit = 'B' then some "G"
  else if suit = 'D' then some "0"
  else none

def dragonStrs : List String := ["R", "G", "0"]

def windStrs : List String := ["E", "S", "W", "N"]

/-- One catalogue entry of HandEvaluator.year_rules[2024]["patterns"].
The source dicts also carry keys like_kongs, like_pungs and
matching_numbers on a few entries; no code path ever reads them, so
they are not modelled.  specific_numbers is [] when the source dict
has no such key (the .get default path). -/
structure Pattern where
  id : String
  pattern : String
  description : String
  points : Nat
  category : String
  suit_requirement : String
  joker_allowed : Bool
  specific_numbers : List Nat
deriving DecidableEq

/-- The 2024 catalogue, in source (dict insertion) order. -/
def patterns2024 : List Pattern :=
  [⟨"2024_222_000_2222_4444", "222 000 2222 4444", "Any 2 Suits", 25, "X", "any_2_suits", true, []⟩,
   ⟨"2024_FFFF_2222_0000_24", "FFFF 2222 0000 24", "Any 2 Suits", 25, "X", "any_2_suits", true, []⟩,
   ⟨"2024_FF_2024_2222_2222", "FF 2024 2222 2222", "Any 3 Suits, Like Kongs 2s or 4s", 25, "X", "any_3_suits", true, []⟩,
   ⟨"2024_NN_EEE_2024_WWW_SS", "NN EEE 2024 WWW SS", "2024 Any 1 Suit", 30, "C", "any_1_suit", false, []⟩,
   ⟨"2468_222_444_6666_8888", "222 444 6666 8888", "Any 1 or 2 Suits", 25, "X", "any_1_or_2_suits", true, []⟩,
   ⟨"2468_2_444_44_666_8888", "2 444 44 666 8888", "Any 3 Suits", 25, "X", "any_3_suits", true, []⟩,
   ⟨"2468_22_44_666_888_DDDD", "22 44 666 888 DDDD", "Any 1 Suit w Matching Dragons", 25, "X", "any_1_suit_matching_dragons", true, []⟩,
   ⟨"2468_FFFF_4444_666_6666", "FFFF 4444 666 6666", "Any 3 Suits", 25, "X", "any_3_suits", true, []⟩,
   ⟨"2468_FF_2222_44_66_8888", "FF 2222 44 66 8888", "Any 1 or 2 Suits", 25, "X", "any_1_or_2_suits", true, []⟩,
   ⟨"2468_FF_222_44_666_88_88", "FF 222 44 666 88 88", "Any 3 Suits", 35, "C", "any_3_suits", true, []⟩,
   ⟨"like_FFFF_111_1111_111", "FFFF 111 1111 111", "Any 3 Suits", 25, "X", "any_3_suits", true, []⟩,
   ⟨"like_11_DDD_11_DDD_1111", "11 DDD 11 DDD 1111", "Any 2 Suits, Pairs and Dragons Match", 25, "X", "any_2_suits_matching_dragons", true, []⟩,
   ⟨"like_FF_1111_NEWS_1111", "FF 1111 NEWS 1111", "Any 2 Suits", 25, "X", "any_2_suits", true, []⟩,
   ⟨"addition_FF_1111_6666_7777", "FF 1111 + 6666 = 7777", "Any 1 Suit", 25, "X", "any_1_suit", true, []⟩,
   ⟨"addition_FF_2222_5555_7777", "FF 2222 + 5555 = 7777", "Any 1 Suit", 25, "X", "any_1_suit", true, []⟩,
   ⟨"addition_FF_3333_4444_7777", "FF 3333 + 4444 = 7777", "Any 1 Suit", 25, "X", "any_1_suit", true, []⟩,
   ⟨"quint_FF_11111_22_33333", "FF 11111 22 33333", "Any 1 Suit, Any 3 Consec. Nos.", 40, "X", "any_1_suit", true, []⟩,
   ⟨"quint_11111_NNNN_88888", "11111 NNNN 88888", "Any 2 Suits, Quints Any 2 Non-Matching Nos., Any Wind", 40, "X", "any_2_suits", false, []⟩,
   ⟨"quint_11_22222_11_22222", "11 22222 11 22222", "Any 2 Suits, Any 2 Consec. Nos.", 45, "X", "any_2_suits", false, []⟩,
   ⟨"quint_FFFFF_DDDD_11111", "FFFFF DDDD 11111", "Any 2 Suits, Quint Any No.", 40, "X", "any_2_suits", true, []⟩,
   ⟨"consec_111_22_3333_44_555", "111 22 3333 44 555", "These Nos. Only", 25, "X", "specific_numbers", true, [1, 2, 3, 4, 5]⟩,
   ⟨"consec_11_222_DDDD_333_44", "11 222 DDDD 333 44", "Any 4 Consec. Nos. in Any 1 Suit, Kong Opp. Dragons", 25, "X", "any_1_suit_opposite_dragons", true, []⟩,
   ⟨"consec_FF_1111_2222_3333", "FF 1111 2222 3333", "Any 1 or 3 Suits, Any 3 Consec. Nos", 25, "X", "any_1_or_3_suits", true, []⟩,
   ⟨"consec_1_22_3333_1_22_3333", "1 22 3333 1 22 3333", "Any 2 Suits, Any 3 Consec. Nos.", 30, "X", "any_2_suits", true, []⟩,
   ⟨"consec_11_22_333_444_DDDD", "11 22 333 444 DDDD", "Any 1 Suit, Any 4 Consec. Nos. w Matching Dragons", 25, "X", "any_1_suit_matching_dragons", true, []⟩,
   ⟨"consec_FFFFF_123_444_444", "FFFFF 123 444 444", "Any 3 Suits, Any 4 Consec. Nos.", 30, "X", "any_3_suits", true, []⟩,
   ⟨"consec_111_222_3333_4444", "111 222 3333 4444", "Any 1 or 2 Suits, Any 4 Consec. Nos.", 30, "C", "any_1_or_2_suits", true, []⟩,
   ⟨"consec_111_222_111_222_33", "111 222 111 222 33", "Any 3 Suits, Any 3 Consec. Nos.", 30, "C", "any_3_suits", true, []⟩,
   ⟨"13579_111_33_5555_77_999", "111 33 5555 77 999", "Any 1 or 3 Suits", 25, "X", "any_1_or_3_suits", true, []⟩,
   ⟨"13579_111_333_3333_5555", "111 333 3333 5555", "Any 2 or 3 Suits", 25, "X", "any_2_or_3_suits", true, []⟩,
   ⟨"13579_FF_11_333_5555_DDD", "FF 11 333 5555 DDD", "Any 1 Suit w Matching Dragons", 25, "X", "any_1_suit_matching_dragons", true, []⟩,
   ⟨"13579_11_33_55_7777_9999", "11 33 55 7777 9999", "Any 3 Suits", 30, "X", "any_3_suits", true, []⟩,
   ⟨"13579_FFFF_3333_5555", "FFFF 3333 x 5555 = 15", "Any 3 Suits", 25, "X", "any_3_suits", true, []⟩,
   ⟨"13579_11_33_333_555_DDDD", "11 33 333 555 DDDD", "Any 3 Suits", 25, "X", "any_3_suits", true, []⟩,
   ⟨"13579_111_33_555_333_333", "111 33 555 333 333", "Any 3 Suits, These Nos. Only", 35, "C", "any_3_suits", true, [1, 3, 5]⟩,
   ⟨"winds_NNNN_EEE_WWW_SSSS", "NNNN EEE WWW SSSS", "Any 2 Suits", 25, "X", "any_2_suits", true, []⟩,
   ⟨"winds_FFFF_DDD_DDDD_DDD", "FFFF DDD DDDD DDD", "Any 3 Dragons", 25, "X", "any_3_dragons", true, []⟩,
   ⟨"winds_NNN_SSS_1111_2222", "NNN SSS 1111 2222", "Any 2 Suits, Any 2 Consec. Nos.", 25, "X", "any_2_suits", true, []⟩,
   ⟨"winds_FF_NN_EEE_WWW_SSSS", "FF NN EEE WWW SSSS", "Any 2 Suits", 25, "X", "any_2_suits", true, []⟩,
   ⟨"winds_NNNN_11_22_33_SSSS", "NNNN 11 22 33 SSSS", "Any 1 Suit, Any 3 Consec. Nos.", 30, "X", "any_1_suit", true, []⟩,
   ⟨"winds_FF_DDDD_NEWS_DDDD", "FF DDDD NEWS DDDD", "Any 2 Dragons", 25, "X", "any_2_dragons", true, []⟩,
   ⟨"winds_NNN_EW_SSS_111_111", "NNN EW SSS 111 111", "Any 2 Suits, Any Like Nos.", 30, "C", "any_2_suits", true, []⟩,
   ⟨"369_333_666_6666_9999", "333 666 6666 9999", "Any 2 or 3 Suits", 25, "X", "any_2_or_3_suits", true, []⟩,
   ⟨"369_FF_3_66_999_333_333", "FF 3 66 999 333 333", "Any 3 Suits, Like Pungs 3, 6 or 9", 25, "X", "any_3_suits", true, []⟩,
   ⟨"369_FF_333_666_9999", "FF 333 666 9999", "Any 1 or 3 Suits", 25, "X", "any_1_or_3_suits", true, []⟩,
   ⟨"369_333_DDDD_333_DDDD", "333 DDDD 333 DDDD", "Any 2 Suits, Pungs 3, 6 or 9 w Matching Dragons", 25, "X", "any_2_suits_matching_dragons", true, []⟩,
   ⟨"369_3333_66_66_66_9999", "3333 66 66 66 9999", "Any 3 Suits, 3s and 9s Match", 30, "X", "any_3_suits", true, []⟩,
   ⟨"369_FFFF_33_66_999_DDD", "FFFF 33 66 999 DDD", "Nos. Any 1 Suit, Any Opp. Dragon", 25, "X", "any_1_suit_opposite_dragons", true, []⟩,
   ⟨"369_333_666_333_666_99", "333 666 333 666 99", "Any 3 Suits", 30, "C", "any_3_suits", true, []⟩,
   ⟨"singles_FF_22_46_88_22_46_88", "FF 22 46 88 22 46 88", "Any 2 Suits", 50, "C", "any_2_suits", false, []⟩,
   ⟨"singles_FF_11_33_55_55_77_99", "FF 11 33 55 55 77 99", "Any 2 Suits", 50, "C", "any_2_suits", false, []⟩,
   ⟨"singles_11_21123_112233", "11 21123 112233", "Any 3 Suits, These Nos. Only", 50, "C", "any_3_suits", false, [1, 2, 3]⟩,
   ⟨"singles_FF_33_66_99_369_369", "FF 33 66 99 369 369", "Any 3 Suits", 50, "C", "any_3_suits", false, []⟩,
   ⟨"singles_11_22_33_44_55_DD_DD", "11 22 33 44 55 DD DD", "Any 5 Consec. Nos. w Opp. Dragons", 50, "C", "any_5_consec_opposite_dragons", false, []⟩,
   ⟨"singles_2024_NN_EW_SS_2024", "2024 NN EW SS 2024", "Any 2 Suits", 75, "C", "any_2_suits", false, []⟩]

/-- Models self.year_rules.get(year, {}).get("patterns", {}): the 2024
catalogue for 2024, the empty catalogue for any other year. -/
def year_patterns (year : Int) : List Pattern :=
  if year = 2024 then patterns2024 else []

/-- One parsed pattern component, mirroring the dicts built by
HandEvaluator._parse_pattern (constructor per source "type" string). -/
inductive Component where
  | flower (count : Nat)
  | year (value : String)
  | wind (value : String)
  | dragon (value : String)
  | dragon_kong (count : Nat)
  | dragon_pung (count : Nat)
  | dragon_pair (count : Nat)
  | dragon_single (count : Nat)
  | all_winds (count : Nat)
  | specific_numbers (numbers : List Nat)
  | numbered_pattern (number : Nat) (count : Nat)
deriving DecidableEq

/-- Models Python part.isdigit(): non-empty and all characters digits. -/
def isDigitStr (s : String) : Bool :=
  decide (s.data ≠ []) && s.data.all Char.isDigit

/-- The branch chain of _parse_pattern for one whitespace-separated
token.  The source has no else branch raising an error: a token that
matches no branch and is not all digits contributes nothing, which is
modelled by the none result. -/
def parse_part (part : String) : Option Component :=
  if part = "F" then some (.flower 1)
  else if part = "FF" then some (.flower 2)
  else if part = "FFFF" then some (.flower 4)
  else if part = "FFFFF" then some (.flower 5)
  else if part = "2024" then some (.year "2024")
  else if part = "E" ∨ part = "S" ∨ part = "W" ∨ part = "N" then some (.wind part)
  else if part = "R" ∨ part = "G" ∨ part = "0" then some (.dragon part)
  else if part = "DDDD" then some (.dragon_kong 4)
  else if part = "DDD" then some (.dragon_pung 3)
  else if part = "DD" then some (.dragon_pair 2)
  else if part = "D" then some (.dragon_single 1)
  else if part = "NEWS" then some (.all_winds 4)
  else if part = "24" then some (.specific_numbers [2, 4])
  else if isDigitStr part then
    some (.numbered_pattern (tileNumber part) part.length)
  else none

/-- The loop of _parse_pattern over the split parts: each part appends
its component, or nothing when no branch matches. -/
def parse_parts : List String → List Component
  | [] => []
  | p :: ps =>
    match parse_part p with
    | some c => c :: parse_parts ps
    | none => parse_parts ps

/-- HandEvaluator._parse_pattern. -/
def parse_pattern (pattern : String) : List Component :=
  parse_parts (splitWs pattern)

/-- One iteration of the component loop of _can_satisfy_pattern:
whether the component's requirement holds against the flower count and
the flower-free tile counts. -/
def componentSatisfied (flower_count : Nat) (available : List String) :
    Component → Bool
  | .flower c => decide (c ≤ flower_count)
  | .year _ => decide (1 ≤ available.count "2024")
  | .wind v => decide (1 ≤ available.count v)
  | .dragon v => decide (1 ≤ available.count v)
  | .dragon_kong c
  | .dragon_pung c
  | .dragon_pair c
  | .dragon_single c => decide (c ≤ (dragonStrs.map (available.count ·)).sum)
  | .all_winds c => decide (c ≤ (windStrs.map (available.count ·)).sum)
  | .specific_numbers nums =>
    decide (2 ≤ available.countP
      (fun t => isNumberedTile t && decide (tileNumber t ∈ nums)))
  | .numbered_pattern number count =>
    decide (count ≤ available.countP
      (fun t => isNumberedTile t && decide (tileNumber t = number)))

/-- HandEvaluator._can_satisfy_pattern.  Flowers are split off; each
component is checked independently against the tile counts of the whole
remainder (the source never deducts tiles consumed by earlier groups
and never substitutes flowers for a missing group tile).  The source
also takes a pattern_info argument it never reads; it is omitted. -/
def can_satisfy_pattern (tiles : List String) (components : List Component) : Bool :=
  let flower_count := tiles.count "F"
  let available := tiles.filter (fun t => decide (t ≠ "F"))
  components.all (componentSatisfied flower_count available)

/-- HandEvaluator._check_suit_requirements.  specific_numbers is the
pattern_info.get("specific_numbers", []) the source reads in the
specific_numbers branch. -/
def check_suit_requirements (tiles : List String) (suit_requirement : String)
    (specific_numbers : List Nat) : Bool :=
  let numbered_tiles := tiles.filter isNumberedTile
  if numbered_tiles = [] then
    decide (suit_requirement = "any_3_dragons" ∨ suit_requirement = "any_2_dragons")
  else
    let suits_used := keysOf (numbered_tiles.map lastChar)
    let num_suits := suits_used.length
    if suit_requirement = "any_1_suit" then decide (num_suits = 1)
    else if suit_requirement = "any_2_suits" then decide (num_suits = 2)
    else if suit_requirement = "any_3_suits" then decide (num_suits = 3)
    else if suit_requirement = "any_1_or_2_suits" then decide (num_suits = 1 ∨ num_suits = 2)
    else if suit_requirement = "any_1_or_3_suits" then decide (num_suits = 1 ∨ num_suits = 3)
    else if suit_requirement = "any_2_or_3_suits" then decide (num_suits = 2 ∨ num_suits = 3)
    else if suit_requirement = "any_1_suit_matching_dragons" then
      if num_suits ≠ 1 then false
      else
        match suits_used with
        | [] => false
        | suit :: _ =>
          match dragon_assoc suit with
          | some d => tiles.contains d
          | none => false
    else if suit_requirement = "any_2_suits_matching_dragons" then
      if num_suits ≠ 2 then false
      else
        suits_used.any (fun suit =>
          match dragon_assoc suit with
          | some d => tiles.contains d
          | none => false)
    else if suit_requirement = "any_1_suit_opposite_dragons" then
      if num_suits ≠ 1 then false
      else
        match suits_used with
        | [] => false
        | suit :: _ =>
          dragonStrs.any (fun d =>
            tiles.contains d &&
              match dragon_assoc suit with
              | some m => decide (d ≠ m)
              | none => true)
    else if suit_requirement = "any_5_consec_opposite_dragons" then
      let numbers := List.insertionSort (· ≤ ·) (numbered_tiles.map tileNumber)
      decide (5 ≤ maxConsecutive numbers)
    else if suit_requirement = "specific_numbers" then
      if specific_numbers = [] then true
      else
        let numbers := numbered_tiles.map tileNumber
        specific_numbers.all (fun n => numbers.contains n)
    else if suit_requirement = "any_3_dragons" then
      decide (3 ≤ tiles.countP (fun t => dragonStrs.contains t))
    else if suit_requirement = "any_2_dragons" then
      decide (2 ≤ tiles.countP (fun t => dragonStrs.contains t))
    else true

/-- HandEvaluator._check_pattern_match: the joker gate, then group
coverage, then the suit requirement. -/
def check_pattern_match (tiles : List String) (p : Pattern) : Bool :=
  let joker_count := tiles.count "F"
  if p.joker_allowed = false ∧ 0 < joker_count then false
  else if can_satisfy_pattern tiles (parse_pattern p.pattern) = false then false
  else if check_suit_requirements tiles p.suit_requirement p.specific_numbers = false then false
  else true

/-- Models Python str.title() over the ascii ids: a letter following a
non-letter is uppercased, a letter following a letter is lowercased,
other characters pass through. -/
def titleCaseGo : Bool → List Char → List Char
  | _, [] => []
  | prevAlpha, c :: cs =>
    (if c.isAlpha then (if prevAlpha then c.toLower else c.toUpper) else c)
      :: titleCaseGo c.isAlpha cs

def titleCase (s : String) : String := String.mk (titleCaseGo false s.data)

/-- One entry of the potential_hands list built by
HandEvaluator._find_potential_hands. -/
structure PotentialHand where
  name : String
  points : Nat
  description : String
  category : String
  pattern : String
  pattern_id : String
deriving DecidableEq

/-- HandEvaluator._find_potential_hands: every catalogue pattern of the
year that _check_pattern_match accepts, in catalogue order. -/
def find_potential_hands (tiles : List String) (year : Int) : List PotentialHand :=
  ((year_patterns year).filter (fun p => check_pattern_match tiles p)).map
    (fun p =>
      { name := titleCase (String.map (fun c => if c = '_' then ' ' else c) p.id)
        points := p.points
        description := p.description
        category := p.category
        pattern := p.pattern
        pattern_id := p.id })

/-- HandEvaluator._calculate_hand_value: 0 for no potential hands, the
maximum points value otherwise (Python max over the nonempty list). -/
def calculate_hand_value : List PotentialHand → Nat
  | [] => 0
  | h :: t => t.foldl (fun m x => max m x.points) h.points

/-- HandEvaluator._find_tiles_to_win.  The source appends another copy
of each single, the missing special tiles, and the rank neighbours of
each numbered tile, then takes list(set(...))[:8]; set order is
implementation defined and is modelled as first-occurrence order. -/
def find_tiles_to_win (tiles : List String) (_year : Int) : List String :=
  let singles := (keysOf tiles).filter (fun t => decide (tiles.count t = 1))
  let specials := ["R", "G", "0", "F", "2024"].filter
    (fun t => decide (¬ tiles.contains t = true))
  let neighbours := (tiles.map (fun t =>
    if isNumberedTile t then
      (if 1 < tileNumber t then [numTileStr (tileNumber t - 1) (lastChar t)] else []) ++
      (if tileNumber t < 9 then [numTileStr (tileNumber t + 1) (lastChar t)] else [])
    else [])).flatten
  (keysOf (singles ++ specials ++ neighbours)).take 8

/-- HandEvaluator._calculate_hand_strength (its tiles argument is never
read by the source and is omitted). -/
def calculate_hand_strength (hand_value : Nat) : String :=
  if 50 ≤ hand_value then "Excellent"
  else if 35 ≤ hand_value then "Strong"
  else if 25 ≤ hand_value then "Developing"
  else "Weak"

/-- The scan of _find_potential_sequences over one suit's sorted
(number, tile) pairs: every window of three with numbers n, n+1, n+2. -/
def windowTriples : List (Nat × String) → List (List String)
  | a :: b :: c :: rest =>
    (if b.1 = a.1 + 1 ∧ c.1 = a.1 + 2 then [[a.2, b.2, c.2]] else []) ++
      windowTriples (b :: c :: rest)
  | _ => []

/-- HandEvaluator._find_potential_sequences: group numbered tiles by
suit in first-appearance order (defaultdict insertion order), sort each
group by number (ties are identical tokens), scan consecutive windows. -/
def find_potential_sequences (numbered_tiles : List String) : List (List String) :=
  let suits := keysOf (numbered_tiles.map lastChar)
  (suits.map (fun s =>
    let pairs := (numbered_tiles.filter (fun t => decide (lastChar t = s))).map
      (fun t => (tileNumber t, t))
    windowTriples (List.insertionSort (fun a b => a.1 ≤ b.1) pairs))).flatten

/-- The hand_structure dict of HandEvaluator._analyze_hand_structure. -/
structure HandStructure where
  numbered_tiles : Nat
  wind_tiles : Nat
  dragon_tiles : Nat
  flower_tiles : Nat
  year_tiles : Nat
  suits_used : List Char
  num_suits : Nat
  pairs : List String
  triplets : List String
  quads : List String
  potential_sequences : List (List String)
deriving DecidableEq

/-- HandEvaluator._analyze_hand_structure. -/
def analyze_hand_structure (tiles : List String) : HandStructure :=
  let numbered := tiles.filter isNumberedTile
  let suits_used := keysOf (numbered.map lastChar)
  { numbered_tiles := numbered.length
    wind_tiles := (tiles.filter (fun t => windStrs.contains t)).length
    dragon_tiles := (tiles.filter (fun t => dragonStrs.contains t)).length
    flower_tiles := (tiles.filter (fun t => decide (t = "F"))).length
    year_tiles := (tiles.filter (fun t => decide (t = "2024"))).length
    suits_used := suits_used
    num_suits := suits_used.length
    pairs := (keysOf tiles).filter (fun t => decide (tiles.count t = 2))
    triplets := (keysOf tiles).filter (fun t => decide (tiles.count t = 3))
    quads := (keysOf tiles).filter (fun t => decide (tiles.count t = 4))
    potential_sequences := find_potential_sequences numbered }

/-- The analysis dict returned by HandEvaluator.evaluate_hand. -/
structure Analysis where
  hand_value : Nat
  potential_hands : List PotentialHand
  tiles_to_win : List String
  hand_strength : String
  tile_distribution : List (String × Nat)
  hand_structure : HandStructure
  year : Int
deriving DecidableEq

/-- The validation failures of evaluate_hand, named after the spec's
error taxonomy: the hand-size check and the collected invalid tokens
of _validate_tiles. -/
inductive EvalError where
  | invalidHandSize
  | invalidTiles (tiles : List String)
deriving DecidableEq

/-- HandEvaluator.evaluate_hand: length check, tile validation, then
the aggregated analysis. -/
def evaluate_hand (tiles : List String) (year : Int) : Except EvalError Analysis :=
  if tiles.length ≠ 13 then .error .invalidHandSize
  else
    let invalid := tiles.filter (fun t => decide (¬ validTileList.contains t = true))
    if invalid ≠ [] then .error (.invalidTiles invalid)
    else
      let potential_hands := find_potential_hands tiles year
      let hand_value := calculate_hand_value potential_hands
      .ok
        { hand_value := hand_value
          potential_hands := potential_hands
          tiles_to_win := find_tiles_to_win tiles year
          hand_strength := calculate_hand_strength hand_value
          tile_distribution := (keysOf tiles).map (fun t => (t, tiles.count t))
          hand_structure := analyze_hand_structure tiles
          year := year }

/-- TileCalculator._calculate_sequence_potential: reward a numbered
tile by how close its neighbours in the hand are to a run. -/
def sequence_potential (tile : String) (all_tiles : List String) : Int :=
  if isNumberedTile tile = false then 0
  else
    let number := tileNumber tile
    let suit := lastChar tile
    let adjacent :=
      (if 1 < number then [numTileStr (number - 1) suit] else []) ++
      (if number < 9 then [numTileStr (number + 1) suit] else [])
    let two_away :=
      (if 2 < number then [numTileStr (number - 2) suit] else []) ++
      (if number < 8 then [numTileStr (number + 2) suit] else [])
    let adjacent_count := adjacent.countP (fun t => all_tiles.contains t)
    let two_away_count := two_away.countP (fun t => all_tiles.contains t)
    if adjacent_count = 2 then 6
    else if adjacent_count = 1 then 3
    else if 0 < two_away_count then 1
    else 0

/-- TileCalculator._calculate_year_specific_value (its all_tiles
argument is never read by the source and is omitted). -/
def year_specific_value (tile : String) (year : Int) : Int :=
  if year = 2024 then
    (if tile = "2024" then 5 else 0) +
    (if dragonStrs.contains tile then 2 else 0) +
    (if tile = "F" then 3 else 0) +
    (if isNumberedTile tile then
      (if tileNumber tile ∈ [2, 4, 6, 8] then 1 else 0) +
      (if tileNumber tile ∈ [1, 3, 5, 7, 9] then 1 else 0) +
      (if tileNumber tile ∈ [3, 6, 9] then 1 else 0)
    else 0)
  else 0

/-- TileCalculator._calculate_structure_value, reading the num_suits
and suits_used entries of the analysis hand_structure dict. -/
def structure_value (tile : String) (all_tiles : List String) (hs : HandStructure) : Int :=
  (if hs.num_suits = 1 ∧ isNumberedTile tile = true ∧
      hs.suits_used.contains (lastChar tile) = true then 2 else 0) +
  (if 1 < hs.num_suits ∧ isNumberedTile tile = true ∧
      4 ≤ all_tiles.countP (fun t => decide (lastChar t = lastChar tile)) then 1 else 0) +
  (if isNumberedTile tile then
    match dragon_assoc (lastChar tile) with
    | some d => if all_tiles.contains d then 1 else 0
    | none => 0
  else 0)

/-- TileCalculator._calculate_discard_score: base class weight, the
multiplicity adjustment, sequence potential, the year bonus and the
hand-structure bonus.  Lower means better to discard. -/
def discard_score (tile : String) (all_tiles : List String) (hs : HandStructure)
    (year : Int) : Int :=
  let base : Int :=
    if tile = "F" then 8
    else if tile = "2024" then 10
    else if dragonStrs.contains tile then 6
    else if windStrs.contains tile then 4
    else if isNumberedTile tile then 2
    else 1
  let count := all_tiles.count tile
  let freq : Int :=
    if count = 1 then -3
    else if count = 2 then 2
    else if 3 ≤ count then 8
    else 0
  base + freq + sequence_potential tile all_tiles +
    year_specific_value tile year + structure_value tile all_tiles hs

/-- TileCalculator._find_best_discard: scores are stored in a dict
keyed by tile value (insertion order is first occurrence), and Python
min over the keys returns the first key attaining the least score. -/
def find_best_discard (tiles : List String) (hs : HandStructure) (year : Int) :
    Option String :=
  match keysOf tiles with
  | [] => none
  | k :: ks =>
    some (ks.foldl
      (fun best t =>
        if discard_score t tiles hs year < discard_score best tiles hs year then t
        else best) k)

/-! Concrete hands and catalogue entries used by the counterexample
evaluations below. -/

/-- The consecutive-run catalogue entry whose first group needs a
single rank-1 tile (catalogue entry consec_1_22_3333_1_22_3333). -/
def consecPat : Pattern :=
  ⟨"consec_1_22_3333_1_22_3333", "1 22 3333 1 22 3333",
   "Any 2 Suits, Any 3 Consec. Nos.", 30, "X", "any_2_suits", true, []⟩

/-- The 2024 entry whose second group is the zeros run 000. -/
def zerosPat : Pattern :=
  ⟨"2024_222_000_2222_4444", "222 000 2222 4444", "Any 2 Suits", 25, "X",
   "any_2_suits", true, []⟩

/-- A 13-tile hand satisfying consecPat outright: one 1B, two 2B, four
3B, six 9C (two suits). -/
def consecHand : List String :=
  ["1B", "2B", "2B", "3B", "3B", "3B", "3B", "9C", "9C", "9C", "9C", "9C", "9C"]

/-- The exact 14-tile winning shape of zerosPat with the zeros taken as
White Dragon tiles. -/
def zerosHand : List String :=
  ["2B", "2B", "2B", "0", "0", "0", "2C", "2C", "2C", "2C", "4C", "4C", "4C", "4C"]

/-! Helper lemmas about the running maximum of pattern points. -/

theorem foldl_max_points_le_acc (l : List PotentialHand) :
    ∀ acc : Nat, acc ≤ l.foldl (fun m x => max m x.points) acc := by
  induction l with
  | nil => intro acc; exact le_refl _
  | cons y l ih =>
    intro acc
    rw [List.foldl_cons]
    exact le_trans (le_max_left _ _) (ih _)

theorem foldl_max_points_le_mem (l : List PotentialHand) :
    ∀ (acc : Nat) (x : PotentialHand), x ∈ l →
      x.points ≤ l.foldl (fun m x => max m x.points) acc := by
  induction l with
  | nil => intro acc x hx; cases hx
  | cons y l ih =>
    intro acc x hx
    rw [List.foldl_cons]
    rcases List.mem_cons.mp hx with rfl | hx
    · exact le_trans (le_max_right _ _) (foldl_max_points_le_acc l _)
    · exact ih _ _ hx

theorem foldl_max_points_attained (l : List PotentialHand) :
    ∀ acc : Nat, l.foldl (fun m x => max m x.points) acc = acc ∨
      ∃ x ∈ l, l.foldl (fun m x => max m x.points) acc = x.points := by
  induction l with
  | nil => intro acc; left; rfl
  | cons y l ih =>
    intro acc
    rw [List.foldl_cons]
    rcases ih (max acc y.points) with h | ⟨x, hx, he⟩
    · rcases max_choice acc y.points with hm | hm
      · left; rw [h, hm]
      · right; exact ⟨y, List.mem_cons_self _ _, by rw [h, hm]⟩
    · right; exact ⟨x, List.mem_cons_of_mem _ hx, he⟩

theorem calculate_hand_value_le (hands : List PotentialHand) :
    ∀ x ∈ hands, x.points ≤ calculate_hand_value hands := by
  cases hands with
  | nil => intro x hx; cases hx
  | cons h t =>
    intro x hx
    rcases List.mem_cons.mp hx with rfl | hx
    · exact foldl_max_points_le_acc t _
    · exact foldl_max_points_le_mem t _ _ hx

theorem calculate_hand_value_attained (hands : List PotentialHand)
    (hne : hands ≠ []) : ∃ x ∈ hands, calculate_hand_value hands = x.points := by
  cases hands with
  | nil => exact absurd rfl hne
  | cons h t =>
    rcases foldl_max_points_attained t h.points with he | ⟨x, hx, he⟩
    · exact ⟨h, List.mem_cons_self _ _, he⟩
    · exact ⟨x, List.mem_cons_of_mem _ hx, he⟩

/-- The shape evaluate_hand reduces to once both validation gates pass. -/
theorem evaluate_hand_ok_fields (tiles : List String) (year : Int)
    (hlen : tiles.length = 13)
    (hvalid : tiles.filter (fun t => decide (¬ validTileList.contains t = true)) = []) :
    evaluate_hand tiles year = .ok
      { hand_value := calculate_hand_value (find_potential_hands tiles year)
        potential_hands := find_potential_hands tiles year
        tiles_to_win := find_tiles_to_win tiles year
        hand_strength :=
          calculate_hand_strength (calculate_hand_value (find_potential_hands tiles year))
        tile_distribution := (keysOf tiles).map (fun t => (t, tiles.count t))
        hand_structure := analyze_hand_structure tiles
        year := year } := by
  unfold evaluate_hand
  rw [if_neg (by rw [hlen]; exact fun h => h rfl)]
  simp only [hvalid]
  rw [if_neg (fun h => h rfl)]

/-- Every catalogue pattern of any year carries at least 25 points. -/
theorem year_patterns_min_points (year : Int) :
    ∀ p ∈ year_patterns year, 25 ≤ p.points := by
  intro p hp
  unfold year_patterns at hp
  by_cases hy : year = 2024
  · rw [if_pos hy] at hp
    revert hp
    revert p
    decide
  · rw [if_neg hy] at hp
    cases hp

/-- Every reported satisfied pattern carries at least 25 points. -/
theorem find_potential_hands_min_points (tiles : List String) (year : Int) :
    ∀ x ∈ find_potential_hands tiles year, 25 ≤ x.points := by
  intro x hx
  unfold find_potential_hands at hx
  obtain ⟨p, hp, rfl⟩ := List.mem_map.mp hx
  exact year_patterns_min_points year p (List.mem_filter.mp hp).1

theorem calculate_hand_strength_ne_weak (v : Nat) (h : 25 ≤ v) :
    calculate_hand_strength v ≠ "Weak" := by
  unfold calculate_hand_strength
  split_ifs with h1 h2
  · decide
  · decide
  · decide

/-! Claim theorems. -/

/-- C1: the spec states that a Group shortfall of s is covered when the
hand holds at least s wildcards.  The code never substitutes wildcards
for group tiles: consecHand satisfies the joker-eligible pattern
consecPat, yet after exchanging the one rank-1 tile the first group
needs for a wildcard (leaving a shortfall of 1 against 1 held
wildcard), _can_satisfy_pattern and hence the match reject the hand. -/
theorem wildcard_shortfall_rejected_sample :
    consecPat ∈ patterns2024 ∧ consecPat.joker_allowed = true ∧
    Component.numbered_pattern 1 1 ∈ parse_pattern consecPat.pattern ∧
    (consecHand.set 0 "F").count "F" = 1 ∧
    ((consecHand.set 0 "F").filter (fun t => decide (t ≠ "F"))).countP
      (fun t => isNumberedTile t && decide (tileNumber t = 1)) = 0 ∧
    check_pattern_match consecHand consecPat = true ∧
    can_satisfy_pattern (consecHand.set 0 "F") (parse_pattern consecPat.pattern) = false ∧
    check_pattern_match (consecHand.set 0 "F") consecPat = false := by decide

/-- C3: replacing a single non-wildcard tile by a wildcard can destroy
a previously satisfied joker-eligible match: consecHand satisfies
consecPat, but with its second tile 2B replaced by F the rank-2 group
loses its second tile and the match fails. -/
theorem wildcard_replacement_breaks_match_sample :
    consecPat ∈ patterns2024 ∧ consecPat.joker_allowed = true ∧
    check_pattern_match consecHand consecPat = true ∧
    consecHand.get? 1 = some "2B" ∧
    check_pattern_match (consecHand.set 1 "F") consecPat = false := by decide

/-- C4: under the 2024 rules the token 000 is parsed as a rank-0
numbered group, which no tile can ever supply (only suffix B/C/D tiles
are counted and their ranks are 1..9): even the exact winning shape
with three White Dragon 0 tiles is rejected, although its suit
requirement holds. -/
theorem zero_run_group_never_matches_sample :
    zerosPat ∈ patterns2024 ∧
    zerosHand.count "0" = 3 ∧
    parse_pattern zerosPat.pattern =
      [.numbered_pattern 2 3, .numbered_pattern 0 3,
       .numbered_pattern 2 4, .numbered_pattern 4 4] ∧
    check_suit_requirements zerosHand zerosPat.suit_requirement
      zerosPat.specific_numbers = true ∧
    can_satisfy_pattern zerosHand (parse_pattern zerosPat.pattern) = false ∧
    check_pattern_match zerosHand zerosPat = false := by decide

/-- C5: a hand of the wrong length is rejected with the hand-size
error before any tile validation or analysis happens, whatever the
tokens are. -/
theorem evaluate_hand_wrong_length_fails (tiles : List String) (year : Int)
    (h : tiles.length ≠ 13) :
    evaluate_hand tiles year = .error .invalidHandSize := by
  unfold evaluate_hand
  rw [if_pos h]

/-- Witness for C5 at a two-token hand of invalid tiles. -/
theorem evaluate_hand_wrong_length_fails_witness :
    (["XX", "YY"] : List String).length ≠ 13 ∧
      evaluate_hand ["XX", "YY"] 2024 = .error .invalidHandSize :=
  ⟨by decide, evaluate_hand_wrong_length_fails ["XX", "YY"] 2024 (by decide)⟩

/-- C6: a pattern whose joker flag is false rejects any hand holding a
wildcard immediately, before group coverage or suit checks run. -/
theorem no_joker_pattern_rejects_any_wildcard (tiles : List String) (p : Pattern)
    (hj : p.joker_allowed = false) (hf : "F" ∈ tiles) :
    check_pattern_match tiles p = false := by
  have hc : 0 < tiles.count "F" := List.count_pos_iff.mpr hf
  simp [check_pattern_match, hj, hc]

/-- Witness for C6 at the first Singles and Pairs catalogue entry and a
hand meeting every group and suit requirement of that entry. -/
theorem no_joker_pattern_rejects_any_wildcard_witness :
    ((⟨"singles_FF_22_46_88_22_46_88", "FF 22 46 88 22 46 88", "Any 2 Suits",
        50, "C", "any_2_suits", false, []⟩ : Pattern).joker_allowed = false ∧
      "F" ∈ ["F", "F", "2B", "2B", "4B", "4B", "6B", "6B", "8B", "8B", "2C", "4C", "8C"]) ∧
    check_pattern_match
      ["F", "F", "2B", "2B", "4B", "4B", "6B", "6B", "8B", "8B", "2C", "4C", "8C"]
      ⟨"singles_FF_22_46_88_22_46_88", "FF 22 46 88 22 46 88", "Any 2 Suits",
        50, "C", "any_2_suits", false, []⟩ = false :=
  ⟨⟨by decide, by decide⟩,
    no_joker_pattern_rejects_any_wildcard _ _ (by decide) (by decide)⟩

/-- C7: the dragon suit requirements count dragon tiles, not distinct
dragon types: three Red Dragons pass any_3_dragons, and a hand with no
numbered tiles and no dragons at all passes any_2_dragons. -/
theorem dragon_requirements_count_tiles_not_types :
    check_suit_requirements ["R", "R", "R", "1B"] "any_3_dragons" [] = true ∧
    keysOf (["R", "R", "R", "1B"].filter (fun t => dragonStrs.contains t)) = ["R"] ∧
    check_suit_requirements ["E", "E", "E"] "any_2_dragons" [] = true ∧
    ["E", "E", "E"].countP (fun t => dragonStrs.contains t) = 0 := by decide

/-- C8 counterexample: the catalogue's addition pattern holds the
tokens + and =, which are outside the token grammar; parsing does not
fail anywhere but silently skips them, yielding exactly the parse of
the sequence without them. -/
theorem parse_pattern_drops_plus_equals :
    (⟨"addition_FF_1111_6666_7777", "FF 1111 + 6666 = 7777", "Any 1 Suit",
        25, "X", "any_1_suit", true, []⟩ : Pattern) ∈ patterns2024 ∧
    splitWs "FF 1111 + 6666 = 7777" = ["FF", "1111", "+", "6666", "=", "7777"] ∧
    parse_part "+" = none ∧ parse_part "=" = none ∧
    parse_pattern "FF 1111 + 6666 = 7777" = parse_pattern "FF 1111 6666 7777" ∧
    parse_pattern "FF 1111 + 6666 = 7777" =
      [.flower 2, .numbered_pattern 1 4, .numbered_pattern 6 4,
       .numbered_pattern 7 4] := by decide

/-- C8 as amended: a token outside the grammar is silently skipped by
the parser, which never fails: any token sequence parses to the same
components as the sequence with every unrecognized token removed. -/
theorem parse_parts_skips_unrecognized (parts : List String) :
    parse_parts parts =
      parse_parts (parts.filter (fun p => (parse_part p).isSome)) := by
  induction parts with
  | nil => rfl
  | cons p ps ih =>
    cases h : parse_part p with
    | none => simp [parse_parts, h, List.filter_cons, ih]
    | some c => simp [parse_parts, h, List.filter_cons, ih]

/-- C2: for any 13-token hand that passes tile validation and any year,
evaluation succeeds with a hand value that bounds every reported
satisfied pattern's points, is attained by one of them when any is
reported, and is 0 when none is. -/
theorem evaluate_hand_value_is_max (tiles : List String) (year : Int)
    (hlen : tiles.length = 13)
    (hvalid : tiles.filter (fun t => decide (¬ validTileList.contains t = true)) = []) :
    ∃ a : Analysis, evaluate_hand tiles year = .ok a ∧
      (a.potential_hands = [] → a.hand_value = 0) ∧
      (∀ x ∈ a.potential_hands, x.points ≤ a.hand_value) ∧
      (a.potential_hands ≠ [] → ∃ x ∈ a.potential_hands, a.hand_value = x.points) := by
  refine ⟨_, evaluate_hand_ok_fields tiles year hlen hvalid, ?_, ?_, ?_⟩
  · intro hempty
    have he : find_potential_hands tiles year = [] := hempty
    show calculate_hand_value (find_potential_hands tiles year) = 0
    rw [he]
    rfl
  · intro x hx
    exact calculate_hand_value_le _ x hx
  · intro hne
    exact calculate_hand_value_attained _ hne

/-- Witness for C2 at a concrete valid 13-tile hand. -/
theorem evaluate_hand_value_is_max_witness :
    ((["1B", "2B", "3B", "4B", "5B", "6B", "7B", "8B", "9B", "E", "S", "W", "N"] :
        List String).length = 13 ∧
      (["1B", "2B", "3B", "4B", "5B", "6B", "7B", "8B", "9B", "E", "S", "W", "N"] :
        List String).filter (fun t => decide (¬ validTileList.contains t = true)) = []) ∧
    (∃ a : Analysis,
      evaluate_hand ["1B", "2B", "3B", "4B", "5B", "6B", "7B", "8B", "9B", "E", "S", "W", "N"]
        2024 = .ok a ∧
      (a.potential_hands = [] → a.hand_value = 0) ∧
      (∀ x ∈ a.potential_hands, x.points ≤ a.hand_value) ∧
      (a.potential_hands ≠ [] → ∃ x ∈ a.potential_hands, a.hand_value = x.points)) :=
  ⟨⟨by decide, by decide⟩,
    evaluate_hand_value_is_max _ 2024 (by decide) (by decide)⟩

/-- C10: under the 2024 rules a valid hand evaluates to the strength
label Weak exactly when no catalogue pattern is satisfied, because
every 2024 pattern carries at least 25 points. -/
theorem weak_iff_no_satisfied_patterns (tiles : List String)
    (hlen : tiles.length = 13)
    (hvalid : tiles.filter (fun t => decide (¬ validTileList.contains t = true)) = []) :
    ∃ a : Analysis, evaluate_hand tiles 2024 = .ok a ∧
      (a.hand_strength = "Weak" ↔ a.potential_hands = []) := by
  refine ⟨_, evaluate_hand_ok_fields tiles 2024 hlen hvalid, ?_⟩
  constructor
  · intro hweak
    show find_potential_hands tiles 2024 = []
    by_contra hne
    obtain ⟨x, hx, he⟩ := calculate_hand_value_attained _ hne
    have h25 : 25 ≤ calculate_hand_value (find_potential_hands tiles 2024) :=
      he ▸ find_potential_hands_min_points tiles 2024 x hx
    exact calculate_hand_strength_ne_weak _ h25 hweak
  · intro hempty
    have he : find_potential_hands tiles 2024 = [] := hempty
    show calculate_hand_strength
      (calculate_hand_value (find_potential_hands tiles 2024)) = "Weak"
    rw [he]
    decide

/-! Lemmas relating the dict-key fold of _find_best_discard to the
first minimum of the hand in input order. -/

theorem find?_filter_of_imp {α : Type} (p q : α → Bool)
    (himp : ∀ x, p x = true → q x = true) :
    ∀ l : List α, (l.filter q).find? p = l.find? p := by
  intro l
  induction l with
  | nil => rfl
  | cons a l ih =>
    cases hq : q a with
    | true =>
      rw [List.filter_cons_of_pos hq]
      cases hp : p a with
      | true => rw [List.find?_cons_of_pos _ hp, List.find?_cons_of_pos _ hp]
      | false =>
        rw [List.find?_cons_of_neg _ (by simp [hp]),
          List.find?_cons_of_neg _ (by simp [hp]), ih]
    | false =>
      have hp : p a = false := by
        cases hpa : p a
        · rfl
        · rw [himp a hpa] at hq; cases hq
      rw [List.filter_cons_of_neg (by simp [hq]),
        List.find?_cons_of_neg _ (by simp [hp]), ih]

theorem find?_keysOf {α : Type} [DecidableEq α] (p : α → Bool) :
    ∀ l : List α, (keysOf l).find? p = l.find? p := by
  intro l
  induction l with
  | nil => rfl
  | cons a l ih =>
    show (a :: (keysOf l).filter (fun b => decide (b ≠ a))).find? p = (a :: l).find? p
    cases hp : p a with
    | true => rw [List.find?_cons_of_pos _ hp, List.find?_cons_of_pos _ hp]
    | false =>
      rw [List.find?_cons_of_neg _ (by simp [hp]),
        List.find?_cons_of_neg _ (by simp [hp]),
        find?_filter_of_imp p (fun b => decide (b ≠ a)) ?_ (keysOf l), ih]
      intro x hx
      rcases eq_or_ne x a with rfl | hne
      · rw [hx] at hp; cases hp
      · simp [hne]

theorem mem_keysOf {α : Type} [DecidableEq α] (a : α) :
    ∀ l : List α, a ∈ keysOf l ↔ a ∈ l := by
  intro l
  induction l with
  | nil => exact Iff.rfl
  | cons b l ih =>
    show a ∈ b :: (keysOf l).filter (fun x => decide (x ≠ b)) ↔ a ∈ b :: l
    constructor
    · intro h
      rcases List.mem_cons.mp h with rfl | h
      · exact List.mem_cons_self _ _
      · exact List.mem_cons_of_mem _ (ih.mp (List.mem_filter.mp h).1)
    · intro h
      rcases List.mem_cons.mp h with rfl | h
      · exact List.mem_cons_self _ _
      · by_cases hab : a = b
        · subst hab; exact List.mem_cons_self _ _
        · exact List.mem_cons_of_mem _
            (List.mem_filter.mpr ⟨ih.mpr h, by simp [hab]⟩)

/-- The strict-less fold that models Python min over dict keys: its
value is minimal and is found first among equal scores. -/
theorem foldl_min_first {α : Type} (f : α → Int) :
    ∀ (ks : List α) (k : α),
      (∀ t ∈ k :: ks,
        f (ks.foldl (fun b t => if f t < f b then t else b) k) ≤ f t) ∧
      (k :: ks).find?
          (fun t => decide
            (f t = f (ks.foldl (fun b t => if f t < f b then t else b) k)))
        = some (ks.foldl (fun b t => if f t < f b then t else b) k) := by
  intro ks
  induction ks with
  | nil =>
    intro k
    constructor
    · intro t ht
      rcases List.mem_cons.mp ht with rfl | h
      · exact le_refl _
      · cases h
    · exact List.find?_cons_of_pos _ (by simp)
  | cons t ks ih =>
    intro k
    simp only [List.foldl_cons]
    by_cases hlt : f t < f k
    · simp only [if_pos hlt]
      obtain ⟨ihmin, ihfind⟩ := ih t
      have hbt : f (ks.foldl (fun b t => if f t < f b then t else b) t) ≤ f t :=
        ihmin t (List.mem_cons_self _ _)
      constructor
      · intro u hu
        rcases List.mem_cons.mp hu with rfl | hu
        · exact le_trans hbt (le_of_lt hlt)
        · exact ihmin u hu
      · rw [List.find?_cons_of_neg _ ?_, ihfind]
        have hne : f (ks.foldl (fun b t => if f t < f b then t else b) t) < f k :=
          lt_of_le_of_lt hbt hlt
        simp [ne_of_gt hne]
    · simp only [if_neg hlt]
      obtain ⟨ihmin, ihfind⟩ := ih k
      have hbk : f (ks.foldl (fun b t => if f t < f b then t else b) k) ≤ f k :=
        ihmin k (List.mem_cons_self _ _)
      have hkt : f k ≤ f t := le_of_not_lt hlt
      constructor
      · intro u hu
        rcases List.mem_cons.mp hu with rfl | hu
        · exact hbk
        · rcases List.mem_cons.mp hu with rfl | hu
          · exact le_trans hbk hkt
          · exact ihmin u (List.mem_cons_of_mem _ hu)
      · by_cases hqk :
          f k = f (ks.foldl (fun b t => if f t < f b then t else b) k)
        · have h1 : (k :: ks).find?
              (fun u => decide
                (f u = f (ks.foldl (fun b t => if f t < f b then t else b) k)))
              = some k := List.find?_cons_of_pos ks (by simp [hqk])
          have h2 : (k :: t :: ks).find?
              (fun u => decide
                (f u = f (ks.foldl (fun b t => if f t < f b then t else b) k)))
              = some k := List.find?_cons_of_pos (t :: ks) (by simp [hqk])
          rw [h2]
          exact h1.symm.trans ihfind
        · rw [List.find?_cons_of_neg _ (by simp [hqk])] at ihfind
          rw [List.find?_cons_of_neg _ (by simp [hqk])]
          have hqt : ¬ (f t = f (ks.foldl (fun b t => if f t < f b then t else b) k)) := by
            intro heq
            exact hqk (le_antisymm (heq ▸ hkt) hbk)
          rw [List.find?_cons_of_neg _ (by simp [hqt])]
          exact ihfind

/-- C9: for every non-empty hand, _find_best_discard returns a held
tile of minimal discard score, and among held tiles sharing that
minimal score it is the first one in the hand's input order (Python
min over the dict keys, which are in first-occurrence order). -/
theorem find_best_discard_lowest_first (tiles : List String) (hs : HandStructure)
    (year : Int) (hne : tiles ≠ []) :
    ∃ b, find_best_discard tiles hs year = some b ∧
      (∀ t ∈ tiles, discard_score b tiles hs year ≤ discard_score t tiles hs year) ∧
      tiles.find?
          (fun t => decide (discard_score t tiles hs year = discard_score b tiles hs year))
        = some b := by
  cases tiles with
  | nil => exact absurd rfl hne
  | cons a l =>
    obtain ⟨hmin, hfind⟩ :=
      foldl_min_first (fun t => discard_score t (a :: l) hs year)
        ((keysOf l).filter (fun b => decide (b ≠ a))) a
    refine ⟨_, rfl, ?_, ?_⟩
    · intro t ht
      exact hmin t ((mem_keysOf t (a :: l)).mpr ht)
    · rw [← find?_keysOf
        (fun t => decide (discard_score t (a :: l) hs year =
          discard_score (((keysOf l).filter (fun b => decide (b ≠ a))).foldl
            (fun best t =>
              if discard_score t (a :: l) hs year < discard_score best (a :: l) hs year
              then t else best) a) (a :: l) hs year)) (a :: l)]
      exact hfind

/-- Witness for C9 at a concrete 13-tile hand and its own structure
summary. -/
theorem find_best_discard_lowest_first_witness :
    (["1B", "2B", "3B", "4B", "5B", "6B", "7B", "8B", "9B", "E", "S", "W", "N"] :
        List String) ≠ [] ∧
    (∃ b, find_best_discard
        ["1B", "2B", "3B", "4B", "5B", "6B", "7B", "8B", "9B", "E", "S", "W", "N"]
        (analyze_hand_structure
          ["1B", "2B", "3B", "4B", "5B", "6B", "7B", "8B", "9B", "E", "S", "W", "N"])
        2024 = some b ∧
      (∀ t ∈ (["1B", "2B", "3B", "4B", "5B", "6B", "7B", "8B", "9B", "E", "S", "W", "N"] :
          List String),
        discard_score b ["1B", "2B", "3B", "4B", "5B", "6B", "7B", "8B", "9B", "E", "S", "W", "N"]
            (analyze_hand_structure
              ["1B", "2B", "3B", "4B", "5B", "6B", "7B", "8B", "9B", "E", "S", "W", "N"]) 2024 ≤
          discard_score t ["1B", "2B", "3B", "4B", "5B", "6B", "7B", "8B", "9B", "E", "S", "W", "N"]
            (analyze_hand_structure
              ["1B", "2B", "3B", "4B", "5B", "6B", "7B", "8B", "9B", "E", "S", "W", "N"]) 2024) ∧
      (["1B", "2B", "3B", "4B", "5B", "6B", "7B", "8B", "9B", "E", "S", "W", "N"] :
          List String).find?
          (fun t => decide
            (discard_score t ["1B", "2B", "3B", "4B", "5B", "6B", "7B", "8B", "9B", "E", "S", "W", "N"]
                (analyze_hand_structure
                  ["1B", "2B", "3B", "4B", "5B", "6B", "7B", "8B", "9B", "E", "S", "W", "N"]) 2024 =
              discard_score b ["1B", "2B", "3B", "4B", "5B", "6B", "7B", "8B", "9B", "E", "S", "W", "N"]
                (analyze_hand_structure
                  ["1B", "2B", "3B", "4B", "5B", "6B", "7B", "8B", "9B", "E", "S", "W", "N"]) 2024))
        = some b) :=
  ⟨by decide,
    find_best_discard_lowest_first
      ["1B", "2B", "3B", "4B", "5B", "6B", "7B", "8B", "9B", "E", "S", "W", "N"]
      (analyze_hand_structure
        ["1B", "2B", "3B", "4B", "5B", "6B", "7B", "8B", "9B", "E", "S", "W", "N"])
      2024 (by decide)⟩

/-- Witness for C10 at a concrete valid 13-tile hand. -/
theorem weak_iff_no_satisfied_patterns_witness :
    ((["1B", "1B", "2C", "3C", "4C", "5D", "6D", "7D", "E", "S", "W", "N", "F"] :
        List String).length = 13 ∧
      (["1B", "1B", "2C", "3C", "4C", "5D", "6D", "7D", "E", "S", "W", "N", "F"] :
        List String).filter (fun t => decide (¬ validTileList.contains t = true)) = []) ∧
    (∃ a : Analysis,
      evaluate_hand ["1B", "1B", "2C", "3C", "4C", "5D", "6D", "7D", "E", "S", "W", "N", "F"]
        2024 = .ok a ∧
      (a.hand_strength = "Weak" ↔ a.potential_hands = [])) :=
  ⟨⟨by decide, by decide⟩,
    weak_iff_no_satisfied_patterns _ (by decide) (by decide)⟩

end MahjongCalc
